import Mathlib

/-!
A shallow embedding of the repository module `typish/_classes.py`.

The module under verification defines four components:
  - `SubscriptableType`  (a metaclass making a type subscriptable; patterns
    carry `__origin__`, `__args__` and a memoized `_hash`),
  - `Something` with metaclass `_SomethingMeta` (structural interfaces with a
    `signature`, an instance check and a subclass check),
  - `ClsDict` (a dispatch table looked up by subclass compatibility),
  - module-level helpers.

The type-algebra oracle (`get_type`, `subclass_of`, `instance_of`,
`get_args_and_return_type`, `is_type_annotation`) lives in
`typish/_functions.py`, which is not part of the provided sources; those
five functions are modelled from the spec (section 6.2) and each such
definition carries a doc comment starting with "Modelled from the spec:".

All other definitions are translated directly from `typish/_classes.py`.
-/

set_option autoImplicit false

/-- A runtime type annotation (a "pattern"): a plain type, the bare
`typing.Callable`, or a parametrized `Callable[[params], ret]`.  These are the
values that appear as signature entries and dispatch-table keys. -/
inductive Pattern : Type where
  | obj
  | intTy
  | strTy
  | boolTy
  | noneTy
  | typeTy
  | callableAny
  | callable (params : List Pattern) (ret : Pattern)

mutual

/-- Structural equality of patterns (Python `==` on type annotations). -/
def Pattern.beq : Pattern → Pattern → Bool
  | .obj, .obj => true
  | .intTy, .intTy => true
  | .strTy, .strTy => true
  | .boolTy, .boolTy => true
  | .noneTy, .noneTy => true
  | .typeTy, .typeTy => true
  | .callableAny, .callableAny => true
  | .callable ps r, .callable qs s => Pattern.beqList ps qs && Pattern.beq r s
  | _, _ => false

/-- Pointwise structural equality of pattern lists. -/
def Pattern.beqList : List Pattern → List Pattern → Bool
  | [], [] => true
  | p :: ps, q :: qs => Pattern.beq p q && Pattern.beqList ps qs
  | _, _ => false

end

instance : BEq Pattern := ⟨Pattern.beq⟩

/-- A Python runtime value, restricted to the shapes the claims exercise:
`None`, booleans, integers, strings and type objects. -/
inductive PyVal : Type where
  | vNone
  | vBool (b : Bool)
  | vInt (n : Int)
  | vStr (s : String)
  | vType (p : Pattern)
deriving BEq

/-- Python truthiness of a value (`bool(v)`): `None`, `0`, the empty string
and `False` are falsy, everything else modelled here is truthy. -/
def PyVal.truthy : PyVal → Bool
  | .vNone => false
  | .vBool b => b
  | .vInt n => n != 0
  | .vStr s => !s.isEmpty
  | .vType _ => true

/-- Python `str(v)` for the modelled values, as used by
`KeyError("No match for {}".format(item))`. -/
def pyStr : PyVal → String
  | .vNone => ("None")
  | .vBool b => if b then ("True") else ("False")
  | .vInt n => toString n
  | .vStr s => s
  | .vType _ => ("<type>")

/-- Modelled from the spec: `get_type(value, use_union)` derives the runtime
pattern of a value; with `use_union` set, a value compatible with multiple
patterns may yield a union pattern.  Every value modelled here has a single
runtime type, so `use_union` does not change the result. -/
def get_type (v : PyVal) (useUnion : Bool) : Pattern :=
  match v, useUnion with
  | .vNone, _ => .noneTy
  | .vBool _, _ => .boolTy
  | .vInt _, _ => .intTy
  | .vStr _, _ => .strTy
  | .vType _, _ => .typeTy

/-- Modelled from the spec: `subclass_of(a, b)` is true iff every value
satisfying `a` also satisfies `b`.  `object` accepts everything; the bare
`Callable` accepts every callable pattern; otherwise patterns must agree. -/
def subclass_of (a b : Pattern) : Bool :=
  if b == Pattern.obj then true
  else if b == Pattern.callableAny then
    match a with
    | .callableAny => true
    | .callable _ _ => true
    | _ => false
  else a == b

/-- Modelled from the spec: `instance_of(value, pattern)` is true iff the
value satisfies the pattern; derived here from `get_type` and `subclass_of`. -/
def instance_of (v : PyVal) (p : Pattern) : Bool :=
  subclass_of (get_type v false) p

/-- Modelled from the spec: `get_args_and_return_type(callable_pattern)`
extracts the ordered parameter patterns and the return pattern of a callable
pattern.  On the bare `Callable` (no declared parameters) the model returns an
empty parameter list and `object`. -/
def get_args_and_return_type : Pattern → List Pattern × Pattern
  | .callable ps r => (ps, r)
  | _ => ([], Pattern.obj)

/-- Modelled from the spec: `is_type_annotation(x)` is true iff `x` is a legal
pattern value (usable as a `ClsDict` key or interface-signature value). -/
def is_type_annotation : PyVal → Bool
  | .vType _ => true
  | _ => false

/-- First value bound to a string key in an association list (Python dict or
class-dict lookup). -/
def lookupStr {β : Type} : List (String × β) → String → Option β
  | [], _ => none
  | (a, b) :: rest, k => if a == k then some b else lookupStr rest k

/-- Insert into a list sorted by the strict order `lt`. -/
def insertBy {β : Type} (lt : β → β → Bool) (x : β) : List β → List β
  | [] => [x]
  | y :: ys => if lt x y then x :: y :: ys else y :: insertBy lt x ys

/-- Insertion sort by the strict order `lt` (model of Python `sorted`). -/
def sortBy {β : Type} (lt : β → β → Bool) : List β → List β
  | [] => []
  | x :: xs => insertBy lt x (sortBy lt xs)

/-- Strict lexicographic order on code-point lists (helper for `strLt`). -/
def charListLt : List Char → List Char → Bool
  | [], [] => false
  | [], _ :: _ => true
  | _ :: _, [] => false
  | c :: cs, d :: ds =>
      if c.toNat < d.toNat then true
      else if d.toNat < c.toNat then false
      else charListLt cs ds

/-- Strict lexicographic order on strings by code point (Python `<` on
`str`). -/
def strLt (a b : String) : Bool :=
  charListLt a.data b.data

/-- The raw `__args__` payload of a `Something` interface: a dict of attribute
names to patterns (`Something[mapping]`), a tuple of slices
(`Something[a : p, b : q]`), or a single slice (`Something[a : p]`). -/
inductive SomethingArgs : Type where
  | dict (entries : List (String × Pattern))
  | slicesTuple (xs : List (String × Pattern))
  | singleSlice (nm : String) (pat : Pattern)

/-- `Something.signature`: normalize the raw `__args__` payload into an
ordered attribute-to-pattern mapping.  A single slice is first wrapped in a
one-element tuple; `sorted` over a dict yields its keys in string order, and
each key is looked up in the dict; `sorted` over a tuple of slices compares
slices as `(start, stop, step)` tuples -- the model orders by `start` alone,
which agrees with the source whenever the slice starts are distinct
(attribute names are distinct in every payload considered here). -/
def signature : SomethingArgs → List (String × Pattern)
  | .dict entries =>
      (sortBy strLt (entries.map Prod.fst)).filterMap
        (fun k => (lookupStr entries k).map (fun p => (k, p)))
  | .slicesTuple xs => sortBy (fun x y => strLt x.1 y.1) xs
  | .singleSlice n p => [(n, p)]

/-- A constructed `Something` interface object: the raw payload plus the
CPython object id, which fixes the identity-based hash. -/
structure SomethingObj : Type where
  args : SomethingArgs
  objId : Nat

/-- `_SomethingMeta.__eq__`: `isinstance(other, _SomethingMeta) and
self.signature() == other.signature()`.  Both operands here are interface
objects, so the `isinstance` test holds; `OrderedDict` equality is
order-sensitive, modelled by list equality. -/
def somethingEq (a b : SomethingObj) : Bool :=
  signature a.args == signature b.args

/-- `_SomethingMeta.__hash__` is `super.__hash__(self)`, which resolves to
`object.__hash__`, the identity-based hash.  Two simultaneously live objects
have distinct ids and hence distinct identity hashes; the model returns the
object id. -/
def somethingHash (a : SomethingObj) : Nat :=
  a.objId

/-- A Python object submitted to an instance check: its resolvable
attributes. -/
abbrev PyObj : Type := List (String × PyVal)

/-- `getattr(instance, key, None)`. -/
def getattrD (o : PyObj) (k : String) : PyVal :=
  (lookupStr o k).getD PyVal.vNone

/-- `_SomethingMeta.__instancecheck__`: every attribute of the signature must
resolve on the instance to a truthy value satisfying `instance_of` against
the declared pattern; the loop returns False at the first failure. -/
def instancecheck (sig : List (String × Pattern)) (inst : PyObj) : Bool :=
  match sig with
  | [] => true
  | (k, p) :: rest =>
      if !(getattrD inst k).truthy || ! instance_of (getattrD inst k) p then false
      else instancecheck rest inst

/-- An entry of a candidate class dict (`subclass.__dict__[attr]`): a plain
instance method, a `staticmethod`, a `classmethod`, or a plain value.  Each
method form records the parameter patterns `get_type` derives when the
attribute is accessed on the class: a plain method lists all declared
parameters including the receiver; a `staticmethod` lists its declared
parameters; a `classmethod` is accessed as a bound method, so its parameter
list already omits `cls`. -/
inductive ClassAttr : Type where
  | plainMethod (params : List Pattern) (ret : Pattern)
  | staticMethod (params : List Pattern) (ret : Pattern)
  | classMethod (params : List Pattern) (ret : Pattern)
  | plainValue (v : PyVal)

/-- `isinstance(entry, staticmethod)`. -/
def ClassAttr.isStaticB : ClassAttr → Bool
  | .staticMethod _ _ => true
  | _ => false

/-- `isinstance(entry, classmethod)`. -/
def ClassAttr.isClassB : ClassAttr → Bool
  | .classMethod _ _ => true
  | _ => false

/-- `get_type(getattr(cls, attr))`: the pattern of a class attribute as seen
through class attribute access. -/
def ClassAttr.pattern : ClassAttr → Pattern
  | .plainMethod ps r => .callable ps r
  | .staticMethod ps r => .callable ps r
  | .classMethod ps r => .callable ps r
  | .plainValue v => get_type v false

/-- A candidate class: its name and its own `__dict__` entries.  The model
restricts attention to classes whose public attributes are exactly their own
public dict entries (no inherited public attributes). -/
structure PyClass : Type where
  clsName : String
  ownAttrs : List (String × ClassAttr)

/-- `attr.startswith("_")`: whether a name is private by convention (the
first code point is an underscore, code 95). -/
def isPrivateName (s : String) : Bool :=
  match s.data with
  | [] => false
  | c :: _ => c.toNat == 95

/-- The public attribute names of a class as `Something.like` enumerates them
(`dir` with privates excluded): the own names not starting with an
underscore, in sorted order. -/
def PyClass.dirPublic (c : PyClass) : List String :=
  sortBy strLt ((c.ownAttrs.map Prod.fst).filter (fun s => !(isPrivateName s)))

/-- `Something.like(cls).signature()`: the dict comprehension
`attr : get_type(getattr(obj, attr))` over the public attributes, passed
through `Something[...]` whose `signature` sorts the keys. -/
def likeSig (c : PyClass) : List (String × Pattern) :=
  signature (SomethingArgs.dict
    ((c.dirPublic).filterMap
      (fun a => (lookupStr c.ownAttrs a).map (fun k => (a, k.pattern)))))

/-- The candidate-side pattern compared in `__subclasscheck__`: when
`subclass.__dict__[attr]` is neither a `staticmethod` nor a `classmethod` and
its derived pattern is callable, the first parameter (the implicit receiver)
is stripped via `get_args_and_return_type` and rebuilt as
`Callable[args[1:], rt]`; otherwise the pattern is compared unchanged.  The
fallback branch of the lookup is unreachable from `subclasscheck`, where the
attribute always names an own public entry of the candidate dict. -/
def adjustedAttrSig (c : PyClass) (attr : String) (attrSig : Pattern) : Pattern :=
  match lookupStr c.ownAttrs attr with
  | some k =>
      if !k.isStaticB && !k.isClassB && subclass_of attrSig Pattern.callableAny then
        Pattern.callable (get_args_and_return_type attrSig).1.tail
          (get_args_and_return_type attrSig).2
      else attrSig
  | none => attrSig

/-- The loop of `_SomethingMeta.__subclasscheck__` over the interface
signature: an attribute absent from the candidate signature is skipped; a
present attribute whose adjusted pattern fails `subclass_of` returns False at
once. -/
def subclasscheckLoop (c : PyClass) (otherSig : List (String × Pattern)) :
    List (String × Pattern) → Bool
  | [] => true
  | (attr, selfPat) :: rest =>
      match lookupStr otherSig attr with
      | none => subclasscheckLoop c otherSig rest
      | some attrSig =>
          if ! subclass_of (adjustedAttrSig c attr attrSig) selfPat then false
          else subclasscheckLoop c otherSig rest

/-- `_SomethingMeta.__subclasscheck__`: compare the interface signature
against the signature derived from the candidate via `Something.like`. -/
def subclasscheck (selfSig : List (String × Pattern)) (c : PyClass) : Bool :=
  subclasscheckLoop c (likeSig c) selfSig

/-- A raised Python error, distinguished as far as the claims require. -/
inductive PyError : Type where
  | typeError (msg : String)
  | keyError (msg : String)
  | indexError (msg : String)
deriving BEq

/-- The entries of a validated `ClsDict`, in insertion order. -/
abbrev ClsDict : Type := List (PyVal × PyVal)

/-- A positional argument of `ClsDict.__new__`: a dict (a `ClsDict` is itself
a dict) or a non-dict value. -/
inductive CtorArg : Type where
  | dictA (entries : List (PyVal × PyVal))
  | plain (v : PyVal)

/-- `ClsDict.__new__`: reject more than one positional argument, then a
non-dict argument; then validate that every key of `args[0]` satisfies
`is_type_annotation` -- an access of `args[0]` that raises `IndexError` when
the positional argument tuple is empty.  On success the dict entries are
stored in insertion order. -/
def ClsDict.new (args : List CtorArg) : Except PyError ClsDict :=
  if args.length > 1 then
    .error (.typeError ("TypeDict accepts only one positional argument, which must be a dict."))
  else
    match args with
    | [] => .error (.indexError ("tuple index out of range"))
    | .plain _ :: _ =>
        .error (.typeError ("TypeDict accepts only a dict as positional argument."))
    | .dictA entries :: _ =>
        if entries.all (fun kv => is_type_annotation kv.1) then .ok entries
        else .error (.typeError ("The given dict must only hold types as keys."))

/-- `subclass_of(item_type, key)` for a stored key: the keys of a validated
`ClsDict` are type objects wrapping a pattern. -/
def subclassOfKey (itemType : Pattern) (key : PyVal) : Bool :=
  match key with
  | .vType p => subclass_of itemType p
  | _ => false

/-- The scan inside `ClsDict.__getitem__`: the first entry whose key accepts
the item pattern wins; otherwise the prepared `KeyError` is raised. -/
def scanEntries (itemType : Pattern) (err : PyError) :
    List (PyVal × PyVal) → Except PyError PyVal
  | [] => .error err
  | (k, v) :: rest =>
      if subclassOfKey itemType k then .ok v else scanEntries itemType err rest

/-- `ClsDict.__getitem__`: compute the item pattern with unions enabled and
scan the entries in insertion order; a miss raises `KeyError` naming the
item. -/
def ClsDict.getitem (d : ClsDict) (item : PyVal) : Except PyError PyVal :=
  scanEntries (get_type item true) (.keyError (("No match for ") ++ pyStr item)) d

/-- `ClsDict.get`: delegate to `__getitem__` and turn a `KeyError` -- and
only a `KeyError` -- into the caller-supplied default. -/
def ClsDict.get (d : ClsDict) (item : PyVal) (dflt : PyVal) : Except PyError PyVal :=
  match ClsDict.getitem d item with
  | .error (.keyError _) => .ok dflt
  | r => r

/-- A class object under the `SubscriptableType` metaclass: either an
unsubscripted base class (whose `__args__` and `__origin__` resolve to
`None`) or a class produced by `__getitem__` from an origin.  Each carries
its name, the member entries of its own dict (name and an opaque value id),
and the memoized `_hash` slot of its own dict (`none` when absent).  The
payload type of `__args__` is a parameter. -/
inductive TypeObj (α : Type) : Type where
  | base (nm : String) (members : List (String × Nat)) (hashCache : Option Nat)
  | derived (nm : String) (members : List (String × Nat)) (args : α)
      (origin : TypeObj α) (hashCache : Option Nat)

/-- The class name (`__name__`, reused verbatim by `__getitem__`). -/
def TypeObj.clsName {α : Type} : TypeObj α → String
  | .base n _ _ => n
  | .derived n _ _ _ _ => n

/-- The member entries of the own class dict. -/
def TypeObj.members {α : Type} : TypeObj α → List (String × Nat)
  | .base _ ms _ => ms
  | .derived _ ms _ _ _ => ms

/-- The `_hash` slot of the own class dict. -/
def TypeObj.hashCache {α : Type} : TypeObj α → Option Nat
  | .base _ _ c => c
  | .derived _ _ _ _ c => c

/-- `__args__` as it resolves on the class (`None` on a base class). -/
def TypeObj.argsOpt {α : Type} : TypeObj α → Option α
  | .base .. => none
  | .derived _ _ a _ _ => some a

/-- `__origin__` as it resolves on the class (`None` on a base class). -/
def TypeObj.originOpt {α : Type} : TypeObj α → Option (TypeObj α)
  | .base .. => none
  | .derived _ _ _ o _ => some o

/-- `SubscriptableType.__getitem__` without its hook step:
`body = ** self.__dict__ plus __args__ and __origin__` -- the new class keeps
the name, copies the own dict members (including the memoized `_hash` slot
when present) and records the subscription payload and the origin. -/
def TypeObj.getitem {α : Type} (self : TypeObj α) (item : α) : TypeObj α :=
  .derived self.clsName self.members item self self.hashCache

/-- `hasattr(result, "_after_subscription")`, checked on the copied dict
members (the bases of the new class contribute the same member names). -/
def TypeObj.hasHook {α : Type} (t : TypeObj α) : Bool :=
  t.members.any (fun m => m.1 == ("_after_subscription"))

/-- `__getitem__` together with the hook invocations it performs: the
resulting class, and the list of arguments `_after_subscription` was invoked
with -- one call, with the subscription payload, exactly when the hook
attribute exists on the result. -/
def TypeObj.getitemCalls {α : Type} (self : TypeObj α) (item : α) : TypeObj α × List α :=
  (self.getitem item, if (self.getitem item).hasHook then [item] else [])

/-- `SubscriptableType.__eq__`: compare `__args__` and `__origin__` with
Python `==`.  Origins under this metaclass recurse into the same comparison;
a base class compared with a subscripted class fails on the `__args__`
comparison (`None` against a payload), and two base classes agree (`None`
against `None` twice). -/
def TypeObj.pyEq {α : Type} [BEq α] : TypeObj α → TypeObj α → Bool
  | .base .., .base .. => true
  | .derived _ _ a o _, .derived _ _ b p _ => a == b && TypeObj.pyEq o p
  | _, _ => false

/-- Deterministic model of the Python string hash: a polynomial hash modulo a
61-bit prime.  Python string hashes are seed-dependent; any fixed function of
the string models one interpreter run. -/
def pyStrHash (s : String) : Nat :=
  s.data.foldl (fun h c => (h * 1000003 + c.toNat) % 2305843009213693951) 5381

/-- Python `str` of a class object: the class repr built from its name (the
name is copied verbatim by `__getitem__`, so a subscripted class prints like
its base). -/
def strOfTypeObj (t : TypeObj String) : String :=
  ("<class ") ++ t.clsName ++ (">")

/-- The string the source hashes: `str` of `__origin__` followed by `str` of
`__args__`, with `None` printed as `None`. -/
def hashPayload (t : TypeObj String) : String :=
  (match t.originOpt with
   | none => ("None")
   | some o => strOfTypeObj o) ++
  (match t.argsOpt with
   | none => ("None")
   | some s => s)

/-- The hash `SubscriptableType.__hash__` computes on a cache miss. -/
def computeHash (t : TypeObj String) : Nat :=
  pyStrHash (hashPayload t)

/-- `getattr(self, "_hash", None)`: the own `_hash` slot, else the slot found
along the bases -- the origin chain, since `__getitem__` prepends the origin
to the bases of the result. -/
def TypeObj.cachedHash {α : Type} : TypeObj α → Option Nat
  | .base _ _ c => c
  | .derived _ _ _ o c =>
      match c with
      | some h => some h
      | none => o.cachedHash

/-- Store a computed hash in the own `_hash` slot. -/
def TypeObj.setCache {α : Type} : TypeObj α → Nat → TypeObj α
  | .base n ms _, h => .base n ms (some h)
  | .derived n ms a o _, h => .derived n ms a o (some h)

/-- `SubscriptableType.__hash__`: return the memoized `_hash` when it
resolves to a truthy value; otherwise hash the origin/args string and store
it in the own slot.  Returns the hash and the updated class state. -/
def TypeObj.hashCall (t : TypeObj String) : Nat × TypeObj String :=
  match t.cachedHash with
  | some h =>
      if h != 0 then (h, t)
      else ((computeHash t), t.setCache (computeHash t))
  | none => ((computeHash t), t.setCache (computeHash t))

/-- The base class `B` of the hash-memoization trace. -/
def traceB : TypeObj String := .base ("B") [] none

/-- `O = B["x"]`. -/
def traceO : TypeObj String := traceB.getitem ("x")

/-- `P1 = O["a"]`, built before any hash of `O` is taken. -/
def traceP1 : TypeObj String := traceO.getitem ("a")

/-- The state of `O` after `hash(O)` has been computed and memoized. -/
def traceO2 : TypeObj String := (traceO.hashCall).2

/-- `P2 = O["a"]`, built after `hash(O)`: the dict copy in `__getitem__`
carries the memoized `_hash` of `O` into the new class. -/
def traceP2 : TypeObj String := traceO2.getitem ("a")

/-- An interface signature requiring a single integer attribute `foo`. -/
def fooSig : List (String × Pattern) := [(("foo"), Pattern.intTy)]

/-- A candidate class with no public attributes. -/
def emptyClass : PyClass := ⟨("C"), []⟩

/-- The dispatch table of the dispatch-order claim: the `object` key inserted
first, then the `int` key. -/
def objIntTable : ClsDict :=
  [(PyVal.vType Pattern.obj, PyVal.vStr ("h1")),
   (PyVal.vType Pattern.intTy, PyVal.vStr ("h2"))]

/-- Interface built from the mapping with keys in order `a`, `b`; object id
1. -/
def ifaceDict : SomethingObj :=
  ⟨.dict [(("a"), .intTy), (("b"), .strTy)], 1⟩

/-- Interface built from the slice sequence in order `b`, `a`; a distinct
object, hence object id 2. -/
def ifaceSlices : SomethingObj :=
  ⟨.slicesTuple [(("b"), .strTy), (("a"), .intTy)], 2⟩

/-- The interface signature of the receiver-stripping claim:
`run : Callable[[int], int]`. -/
def runSig : List (String × Pattern) :=
  [(("run"), .callable [.intTy] .intTy)]

/-- A candidate class whose `run(self, x)` is a plain instance method of one
declared value parameter (the receiver pattern listed first). -/
def goodRun : PyClass :=
  ⟨("Good"), [(("run"), .plainMethod [.obj, .intTy] .intTy)]⟩

/-- A candidate class whose `run(self, x, y)` requires a second value
parameter. -/
def badRun : PyClass :=
  ⟨("Bad"), [(("run"), .plainMethod [.obj, .intTy, .intTy] .intTy)]⟩

/-- A candidate class whose `run(x)` is a `staticmethod`. -/
def staticRun : PyClass :=
  ⟨("Stat"), [(("run"), .staticMethod [.intTy] .intTy)]⟩

/-- A candidate class whose `run(cls, x)` is a `classmethod` (bound access
already omits `cls`). -/
def classRun : PyClass :=
  ⟨("Clsm"), [(("run"), .classMethod [.intTy] .intTy)]⟩

/-- Whether a construction outcome is the `TypeError` used by the explicit
guards of `ClsDict.__new__`. -/
def isCtorTypeError : Except PyError ClsDict → Bool
  | .error (.typeError _) => true
  | _ => false

/-- The scan of `ClsDict.__getitem__` returns the value of the first entry
whose key accepts the item pattern, and the prepared error when no entry
does. -/
theorem scanEntries_eq_findFirst (t : Pattern) (e : PyError) :
    ∀ d : List (PyVal × PyVal),
      scanEntries t e d =
        match d.find? (fun kv => subclassOfKey t kv.1) with
        | some kv => Except.ok kv.2
        | none => Except.error e := by
  intro d
  induction d with
  | nil => rfl
  | cons kv rest ih =>
      obtain ⟨k, v⟩ := kv
      cases h : subclassOfKey t k <;>
        simp [scanEntries, List.find?, h, ih]

/-- The instance-check loop succeeds iff every signature attribute resolves
to a truthy value satisfying its pattern. -/
theorem instancecheck_eq_true_iff (x : PyObj) :
    ∀ sig : List (String × Pattern),
      instancecheck sig x = true ↔
        ∀ kp ∈ sig,
          (getattrD x kp.1).truthy = true ∧ instance_of (getattrD x kp.1) kp.2 = true := by
  intro sig
  induction sig with
  | nil => simp [instancecheck]
  | cons kp rest ih =>
      obtain ⟨k, p⟩ := kp
      simp only [instancecheck, List.forall_mem_cons]
      cases ht : (getattrD x k).truthy <;>
        cases hio : instance_of (getattrD x k) p <;>
          simp [ht, hio, ih]

/-- The subclass-check loop succeeds iff every interface attribute that also
appears in the candidate signature passes the adjusted `subclass_of`
comparison; attributes with no counterpart impose no condition. -/
theorem subclasscheckLoop_eq_true_iff (c : PyClass) (otherSig : List (String × Pattern)) :
    ∀ sig : List (String × Pattern),
      subclasscheckLoop c otherSig sig = true ↔
        ∀ ap ∈ sig, ∀ q, lookupStr otherSig ap.1 = some q →
          subclass_of (adjustedAttrSig c ap.1 q) ap.2 = true := by
  intro sig
  induction sig with
  | nil => simp [subclasscheckLoop]
  | cons ap rest ih =>
      obtain ⟨attr, selfPat⟩ := ap
      simp only [subclasscheckLoop, List.forall_mem_cons]
      cases hl : lookupStr otherSig attr with
      | none => simp [hl, ih]
      | some q =>
          cases hs : subclass_of (adjustedAttrSig c attr q) selfPat <;>
            simp [hl, hs, ih]

/-- Claim C1, counterexample: the interface signature requires `foo`, the
candidate class derives an empty signature (no counterpart for `foo`), yet
the subclass check returns True -- the source guards the whole loop body with
`if attr in other_sig`, so a missing attribute is skipped, not failed. -/
theorem C1_counterexample :
    lookupStr (likeSig emptyClass) ("foo") = none ∧
    subclasscheck fooSig emptyClass = true :=
  ⟨rfl, by decide⟩

/-- Claim C1, amended: an interface attribute with no counterpart in the
signature derived from the candidate via `Something.like` is skipped by the
subclass check; the check returns True iff every attribute present in both
signatures passes the (receiver-stripped) `subclass_of` comparison, so a
candidate lacking interface attributes can still pass. -/
theorem C1_missing_attribute_skipped :
    ∀ (sig : List (String × Pattern)) (c : PyClass),
      subclasscheck sig c = true ↔
        ∀ ap ∈ sig, ∀ q, lookupStr (likeSig c) ap.1 = some q →
          subclass_of (adjustedAttrSig c ap.1 q) ap.2 = true :=
  fun sig c => subclasscheckLoop_eq_true_iff c (likeSig c) sig

/-- Claim C1, witness: the amended characterization applied to the concrete
interface and the attribute-free candidate. -/
theorem C1_witness : subclasscheck fooSig emptyClass = true :=
  (C1_missing_attribute_skipped fooSig emptyClass).mpr
    (fun _ _ _ hq => nomatch hq)

/-- Claim C2: `ClsDict.__getitem__` computes the item pattern via `get_type`
with unions enabled, scans the entries in insertion order and returns the
handler of the first entry whose key satisfies `subclass_of` against the item
pattern; a table built from the dict with the `object` key first and the
`int` key second dispatches an integer item to the first handler. -/
theorem C2_dispatch_first_match :
    (∀ (d : ClsDict) (item : PyVal),
        ClsDict.getitem d item =
          match d.find? (fun kv => subclassOfKey (get_type item true) kv.1) with
          | some kv => Except.ok kv.2
          | none => Except.error (.keyError (("No match for ") ++ pyStr item))) ∧
    ClsDict.new [CtorArg.dictA objIntTable] = .ok objIntTable ∧
    ClsDict.getitem objIntTable (PyVal.vInt 5) = .ok (PyVal.vStr ("h1")) :=
  ⟨fun d item => scanEntries_eq_findFirst (get_type item true) _ d, rfl, rfl⟩

/-- Claim C3, counterexample: the interface built from the mapping with keys
`a`, `b` equals the interface built from the slice sequence `b`, `a`, but the
two do not hash equal -- `_SomethingMeta.__hash__` is `super.__hash__(self)`,
the identity-based `object.__hash__`, and the two are distinct objects. -/
theorem C3_counterexample :
    somethingEq ifaceDict ifaceSlices = true ∧
    (somethingHash ifaceDict == somethingHash ifaceSlices) = false :=
  ⟨by decide, by decide⟩

/-- Claim C3, amended: a StructuralInterface built from the mapping with keys
`a`, `b` equals one built from the ordered slice sequence `b`, `a` --
signature retrieval sorts the raw payload, so construction order does not
affect equality -- but the hash is identity-based, so the two interface
objects need not hash equal.  The equality holds whatever the ids of the two
objects are. -/
theorem C3_sorted_signature_equality :
    ∀ i j : Nat,
      somethingEq ⟨SomethingArgs.dict [(("a"), .intTy), (("b"), .strTy)], i⟩
          ⟨SomethingArgs.slicesTuple [(("b"), .strTy), (("a"), .intTy)], j⟩ = true ∧
      signature (SomethingArgs.dict [(("a"), .intTy), (("b"), .strTy)]) =
        signature (SomethingArgs.slicesTuple [(("b"), .strTy), (("a"), .intTy)]) :=
  fun _ _ => ⟨rfl, rfl⟩

/-- Claim C4: the trace `O = B[x]; P1 = O[a]; hash(P1); hash(O); P2 = O[a]`
evaluated in the model.  `P1` and `P2` come from independent parametrization
calls with the same origin and the same arguments and compare equal, yet
their hashes differ: the dict copy in `__getitem__` carries the `_hash`
memoized on `O` into `P2`, whose hash call therefore returns the hash of `O`
instead of a value derived from `(O, a)`. -/
theorem C4_hash_memoization_leak :
    TypeObj.pyEq traceP1 traceP2 = true ∧
    ((traceP1.hashCall).1 == (traceP2.hashCall).1) = false ∧
    (traceP2.hashCall).1 = (traceO.hashCall).1 :=
  ⟨by decide, by decide, by decide⟩

/-- Claim C5: `ClsDict.__new__` raises a `TypeError` for two positional
arguments, for a non-dict positional argument, and for a dict with a key
that fails `is_type_annotation`; each is raised at construction. -/
theorem C5_construction_errors :
    ClsDict.new [CtorArg.dictA [], CtorArg.dictA []] =
      .error (.typeError ("TypeDict accepts only one positional argument, which must be a dict.")) ∧
    ClsDict.new [CtorArg.plain (PyVal.vInt 123)] =
      .error (.typeError ("TypeDict accepts only a dict as positional argument.")) ∧
    ClsDict.new [CtorArg.dictA [(PyVal.vStr ("x"), PyVal.vInt 1)]] =
      .error (.typeError ("The given dict must only hold types as keys.")) :=
  ⟨rfl, rfl, rfl⟩

/-- Claim C6: the instance check succeeds iff every signature attribute
resolves on the object (via `getattr` with default `None`) to a truthy value
satisfying `instance_of` against the declared pattern; a missing attribute
resolves to `None`, which is falsy, so it fails the check. -/
theorem C6_instancecheck_characterization :
    ∀ (a : SomethingArgs) (x : PyObj),
      instancecheck (signature a) x = true ↔
        ∀ kp ∈ signature a,
          (getattrD x kp.1).truthy = true ∧ instance_of (getattrD x kp.1) kp.2 = true :=
  fun a x => instancecheck_eq_true_iff x (signature a)

/-- Claim C6, witness: the characterization applied to a one-attribute
interface and an object carrying that attribute. -/
theorem C6_witness :
    instancecheck (signature (SomethingArgs.dict [(("name"), Pattern.strTy)]))
      [(("name"), PyVal.vStr ("n"))] = true :=
  (C6_instancecheck_characterization
      (SomethingArgs.dict [(("name"), Pattern.strTy)])
      [(("name"), PyVal.vStr ("n"))]).mpr
    (fun kp hkp => by
      have h2 : kp ∈ [((("name") : String), Pattern.strTy)] := hkp
      cases h2 with
      | head => exact ⟨rfl, rfl⟩
      | tail _ h3 => cases h3)

/-- Claim C7: in the subclass check, a candidate attribute that is a plain
instance method (neither `staticmethod` nor `classmethod`) with a callable
pattern has exactly its first parameter stripped before the `subclass_of`
comparison, while static and class-bound attributes are compared unstripped;
consequently the class whose `run(self, x)` takes one value parameter passes
the check against `run : Callable[[int], int]`, and the class whose `run`
requires a second value parameter fails it. -/
theorem C7_receiver_stripping :
    (∀ (c : PyClass) (attr : String) (ps : List Pattern) (r : Pattern) (k : ClassAttr),
        lookupStr c.ownAttrs attr = some k →
        k.isStaticB = false → k.isClassB = false →
        adjustedAttrSig c attr (.callable ps r) = .callable ps.tail r) ∧
    (∀ (c : PyClass) (attr : String) (p : Pattern) (k : ClassAttr),
        lookupStr c.ownAttrs attr = some k →
        (k.isStaticB = true ∨ k.isClassB = true) →
        adjustedAttrSig c attr p = p) ∧
    subclasscheck runSig goodRun = true ∧
    subclasscheck runSig badRun = false := by
  refine ⟨?_, ?_, by decide, by decide⟩
  · intro c attr ps r k hl hs hc
    simp only [adjustedAttrSig, hl]
    rw [hs, hc]
    rfl
  · intro c attr p k hl hk
    rcases hk with hk | hk <;>
      simp [adjustedAttrSig, hl, hk]

/-- Claim C7, witness: the stripping equation applied to the concrete class
whose `run` is a plain method, and the unstripped equation applied to the
`staticmethod` and `classmethod` variants, discharging the kind
hypotheses. -/
theorem C7_witness :
    adjustedAttrSig goodRun ("run") (.callable [.obj, .intTy] .intTy) =
      .callable [.intTy] .intTy ∧
    adjustedAttrSig staticRun ("run") (.callable [.intTy] .intTy) =
      .callable [.intTy] .intTy ∧
    adjustedAttrSig classRun ("run") (.callable [.intTy] .intTy) =
      .callable [.intTy] .intTy :=
  ⟨C7_receiver_stripping.1 goodRun ("run") [.obj, .intTy] .intTy
      (.plainMethod [.obj, .intTy] .intTy) rfl rfl rfl,
   C7_receiver_stripping.2.1 staticRun ("run") (.callable [.intTy] .intTy)
      (.staticMethod [.intTy] .intTy) rfl (Or.inl rfl),
   C7_receiver_stripping.2.1 classRun ("run") (.callable [.intTy] .intTy)
      (.classMethod [.intTy] .intTy) rfl (Or.inr rfl)⟩

/-- Claim C8: when no entry key is compatible with the item pattern,
`__getitem__` raises a `KeyError` naming the unmatched item and `get` returns
the caller-supplied default; when `__getitem__` finds a handler, `get`
returns the same handler. -/
theorem C8_lookup_miss_and_get :
    ∀ (d : ClsDict) (item dflt : PyVal),
      (d.find? (fun kv => subclassOfKey (get_type item true) kv.1) = none →
          ClsDict.getitem d item =
            .error (.keyError (("No match for ") ++ pyStr item)) ∧
          ClsDict.get d item dflt = .ok dflt) ∧
      (∀ v, ClsDict.getitem d item = .ok v → ClsDict.get d item dflt = .ok v) := by
  intro d item dflt
  constructor
  · intro hnone
    have hg : ClsDict.getitem d item =
        .error (.keyError (("No match for ") ++ pyStr item)) := by
      unfold ClsDict.getitem
      rw [scanEntries_eq_findFirst, hnone]
    exact ⟨hg, by unfold ClsDict.get; rw [hg]⟩
  · intro v hv
    unfold ClsDict.get
    rw [hv]

/-- Claim C8, witness: a one-entry integer table probed with a string misses,
raising the naming `KeyError`, and `get` returns the default. -/
theorem C8_witness :
    ClsDict.getitem [(PyVal.vType Pattern.intTy, PyVal.vStr ("h"))] (PyVal.vStr ("s")) =
      .error (.keyError ("No match for s")) ∧
    ClsDict.get [(PyVal.vType Pattern.intTy, PyVal.vStr ("h"))] (PyVal.vStr ("s"))
      PyVal.vNone = .ok PyVal.vNone :=
  (C8_lookup_miss_and_get [(PyVal.vType Pattern.intTy, PyVal.vStr ("h"))]
      (PyVal.vStr ("s")) PyVal.vNone).1 rfl

/-- Claim C9: `T[A]` returns a class whose `__origin__` is `T`, whose
`__args__` is `A` and which carries the own dict members of `T`; when the
result has the `_after_subscription` hook, the hook is invoked exactly once
with `A` after the result is built and before it is returned (the invocation
log is `[A]` exactly when the hook is present, `[]` otherwise). -/
theorem C9_subscription_result :
    ∀ (α : Type) (T : TypeObj α) (A : α),
      ((T.getitemCalls A).1.originOpt = some T) ∧
      ((T.getitemCalls A).1.argsOpt = some A) ∧
      ((T.getitemCalls A).1.members = T.members) ∧
      ((T.getitemCalls A).2 = if (T.getitemCalls A).1.hasHook then [A] else []) :=
  fun _ _ _ => ⟨rfl, rfl, rfl, rfl⟩

/-- Claim C10: `ClsDict()` with an empty positional argument tuple passes the
arity and dict-type guards and then evaluates `args[0]` inside the
key-validation step, failing with an `IndexError` rather than the
`TypeError` used for the other malformed inputs. -/
theorem C10_empty_args_index_error :
    ClsDict.new [] = .error (.indexError ("tuple index out of range")) ∧
    isCtorTypeError (ClsDict.new []) = false :=
  ⟨rfl, rfl⟩
